import Mathlib

/-!
Shallow embedding of the item-synchronization and volunteer-assignment core of
`src/lib/octokit.ts` (the `createGithubItem` reconciler and the
`assignIssueToVolunteer` coordinator), together with proofs about it.

The record store (Prisma tables) is modelled as lists of records keyed by their
unique fields; the remote platform and the configuration lookup are modelled as
injected oracles.  JavaScript falsiness of optional strings is modelled
explicitly.
-/

namespace Slacker

/-! ## Data model (the Prisma records used by the two operations) -/

inductive GithubItemType where
  | issue
  | pull_request
deriving DecidableEq, Repr

/-- The `ActionItem` row owned one-to-one by a `GithubItem` (the spec's
Workflow Record): status, reply count, optional resolution timestamp and
participant list. -/
structure ActionItemRec where
  status : String
  totalReplies : Nat
  resolvedAt : Option String
  participants : List String
deriving DecidableEq, Repr

/-- A `Repository` row, keyed by its unique `url`. -/
structure RepositoryRec where
  url : String
  name : String
  owner : String
deriving DecidableEq, Repr

/-- A `User` row.  `githubUsername` and `githubToken` are nullable. -/
structure UserRec where
  id : Nat
  githubUsername : Option String
  githubToken : Option String
  slackId : Option String
deriving DecidableEq, Repr

/-- A `GithubItem` row, keyed by its unique `nodeId`; the owned `ActionItem`
is embedded (one-to-one), and `labelsOnItems` holds the names of the labels
currently associated to the item. -/
structure GithubItemRec where
  nodeId : String
  repoUrl : String
  authorId : Nat
  title : String
  body : String
  number : Nat
  state : String
  type : GithubItemType
  createdAt : String
  updatedAt : String
  actionItem : ActionItemRec
  labelsOnItems : List String
deriving DecidableEq, Repr

/-- A `VolunteerDetail` row (the spec's Volunteer Claim): one user, one
assignment time, one referenced `GithubItem` id. -/
structure VolunteerDetailRec where
  assigneeId : Nat
  assignedOn : Nat
  issueId : Nat
deriving DecidableEq, Repr

/-- The record store: repositories, users, label names, items (with embedded
workflow records and label associations) and volunteer claims.  `nextUserId`
models the autoincrementing user primary key. -/
structure Store where
  repositories : List RepositoryRec
  users : List UserRec
  labels : List String
  items : List GithubItemRec
  volunteerDetails : List VolunteerDetailRec
  nextUserId : Nat
deriving DecidableEq, Repr

def emptyStore : Store :=
  { repositories := [], users := [], labels := [], items := [],
    volunteerDetails := [], nextUserId := 0 }

/-! ## Inbound event payloads -/

structure LabelPayload where
  name : String
deriving DecidableEq, Repr

/-- The issue / pull-request object of a webhook payload.  `body` and `labels`
may be absent (`null`/`undefined` in the source). -/
structure ItemPayload where
  node_id : String
  title : String
  body : Option String
  number : Nat
  user_login : String
  labels : Option (List LabelPayload)
  created_at : String
  updated_at : String
deriving DecidableEq, Repr

structure RepoPayload where
  name : String
  owner_login : String
  html_url : String
deriving DecidableEq, Repr

/-- A webhook payload: at most one of `issue` / `pull_request` is normally
present; the source reads `issue || pull_request`. -/
structure Payload where
  issue : Option ItemPayload
  pull_request : Option ItemPayload
  repository : RepoPayload
deriving DecidableEq, Repr

/-- The item object the source destructures: `const item = issue || pull_request`. -/
def Payload.item (p : Payload) : Option ItemPayload :=
  p.issue.orElse (fun _ => p.pull_request)

/-! ## Configuration (external collaborator `lib/utils`) -/

structure Maintainer where
  github : Option String
  slack : Option String

/-- Modelled from the spec: `getProjectName` and `getMaintainers` live in
`lib/utils`, which is not part of the given sources; the spec describes them as
"a static mapping from repository URL to project metadata and maintainer
identities", an immutable lookup table injected into the reconciler. -/
structure Config where
  getProjectName : String → Option String
  getMaintainers : String → List Maintainer

/-- The maintainer check of the source:
`maintainers.find((maintainer) => maintainer?.github === item.user.login)`. -/
def isMaintainerAuthored (cfg : Config) (repoUrl : String) (login : String) : Bool :=
  ((cfg.getMaintainers repoUrl).find? (fun m => m.github == some login)).isSome

/-! ## The reconciler `createGithubItem` -/

/-- `prisma.repository.upsert({ where: { url }, create: {...}, update: {...} })`. -/
def upsertRepository (rp : RepoPayload) (repos : List RepositoryRec) : List RepositoryRec :=
  if repos.any (fun r => r.url == rp.html_url) then
    repos.map (fun r =>
      if r.url == rp.html_url then { r with name := rp.name, owner := rp.owner_login } else r)
  else
    repos ++ [{ url := rp.html_url, name := rp.name, owner := rp.owner_login }]

/-- `label: { connectOrCreate: { where: { name }, create: { name } } }` for one label. -/
def connectOrCreateLabel (labels : List String) (name : String) : List String :=
  if labels.contains name then labels else labels ++ [name]

def connectOrCreateLabels (labels : List String) (names : List String) : List String :=
  names.foldl connectOrCreateLabel labels

/-- The label names of the payload: `item.labels?.map(({ name }) => ...)`,
with an absent list behaving as no associations. -/
def payloadLabelNames (item : ItemPayload) : List String :=
  (item.labels.getD []).map (fun l => l.name)

/-- `prisma.user.findFirst({ where: { githubUsername: login } })`. -/
def findUserByGithubUsername (users : List UserRec) (login : String) : Option UserRec :=
  users.find? (fun u => u.githubUsername == some login)

/-- `prisma.user.create({ data: { githubUsername: login } })`. -/
def freshUser (id : Nat) (login : String) : UserRec :=
  { id := id, githubUsername := some login, githubToken := none, slackId := none }

/-- `s.startsWith(pfx)`, modelled on the underlying character lists so that it
evaluates on concrete inputs. -/
def strStartsWith (s pfx : String) : Bool :=
  pfx.data.isPrefixOf s.data

/-- The `create` branch of the `githubItem` upsert. -/
def newGithubItem (repoUrl : String) (authorId : Nat) (item : ItemPayload) : GithubItemRec :=
  { nodeId := item.node_id
    repoUrl := repoUrl
    authorId := authorId
    title := item.title
    body := item.body.getD ""
    number := item.number
    state := "open"
    type := if strStartsWith item.node_id "I_" then GithubItemType.issue
            else GithubItemType.pull_request
    createdAt := item.created_at
    updatedAt := item.updated_at
    actionItem := { status := "open", totalReplies := 0, resolvedAt := none, participants := [] }
    labelsOnItems := payloadLabelNames item }

/-- The `update` branch of the `githubItem` upsert: refresh state/title/body/
updatedAt, replace the label associations wholesale, set the workflow status
from the previously looked-up resolution timestamp and clear participants. -/
def updateItem (item : ItemPayload) (prevResolved : Bool) (it : GithubItemRec) : GithubItemRec :=
  { it with
    state := "open"
    title := item.title
    body := item.body.getD ""
    updatedAt := item.updated_at
    labelsOnItems := payloadLabelNames item
    actionItem := { it.actionItem with
      status := if prevResolved then "closed" else "open"
      participants := [] } }

/-- The `prisma.actionItem.findFirst({ where: { githubItem: { nodeId } } })`
lookup followed by `actionItem?.resolvedAt`, as a boolean: was the item with
this node id previously resolved? -/
def prevResolvedIn (items : List GithubItemRec) (nid : String) : Bool :=
  (((items.find? (fun it => it.nodeId == nid)).map (fun it => it.actionItem)).bind
    (fun a => a.resolvedAt)).isSome

/-- The per-row effect of the `update` branch: rows whose `nodeId` matches are
updated, the rest are untouched. -/
def applyItemUpdate (item : ItemPayload) (prevResolved : Bool) (it : GithubItemRec) :
    GithubItemRec :=
  if it.nodeId == item.node_id then updateItem item prevResolved it else it

/-- `prisma.githubItem.upsert({ where: { nodeId }, create: ..., update: ... })`,
preceded (as in the source) by the `actionItem` lookup; the label entities of
the payload are connect-or-created on both branches. -/
def upsertGithubItem (repoUrl : String) (authorId : Nat) (item : ItemPayload)
    (s : Store) : Store :=
  if s.items.any (fun it => it.nodeId == item.node_id) then
    { s with
      labels := connectOrCreateLabels s.labels (payloadLabelNames item)
      items := s.items.map (applyItemUpdate item (prevResolvedIn s.items item.node_id)) }
  else
    { s with
      labels := connectOrCreateLabels s.labels (payloadLabelNames item)
      items := s.items ++ [newGithubItem repoUrl authorId item] }

/-- The author-resolution step (`user.findFirst` then `user.create` when
absent): the store after it. -/
def resolveAuthorStore (item : ItemPayload) (s1 : Store) : Store :=
  match findUserByGithubUsername s1.users item.user_login with
  | some _ => s1
  | none =>
    { s1 with
      users := s1.users ++ [freshUser s1.nextUserId item.user_login]
      nextUserId := s1.nextUserId + 1 }

/-- The author-resolution step: the id of the resolved (found or created)
author. -/
def resolveAuthorId (item : ItemPayload) (s1 : Store) : Nat :=
  match findUserByGithubUsername s1.users item.user_login with
  | some u => u.id
  | none => s1.nextUserId

/-- The part of the reconciler that runs after the repository upsert on a
monitored repository: maintainer suppression, author resolution, item upsert.
When `issue || pull_request` is absent the source throws at `item.user.login`
here, so the repository write persists and nothing else happens. -/
def reconcileMonitored (cfg : Config) (payload : Payload) (s1 : Store) : Store :=
  match payload.item with
  | none => s1
  | some item =>
    if isMaintainerAuthored cfg payload.repository.html_url item.user_login then s1
    else
      upsertGithubItem payload.repository.html_url (resolveAuthorId item s1) item
        (resolveAuthorStore item s1)

/-- The reconciler `createGithubItem(payload)`: project lookup, repository
upsert, then the monitored-repository path (maintainer suppression, author
resolution, item upsert).  The result is the stored state after the call. -/
def createGithubItem (cfg : Config) (payload : Payload) (s : Store) : Store :=
  match cfg.getProjectName payload.repository.html_url with
  | none => s
  | some _ =>
    reconcileMonitored cfg payload
      { s with repositories := upsertRepository payload.repository s.repositories }

/-! ## The coordinator `assignIssueToVolunteer` -/

/-- One remote-platform call, as observed in the call trace of an assignment
attempt. -/
inductive RemoteCall where
  | getToken (owner repo : String)
  | getIssue (owner repo : String) (number : Nat)
  | createComment (owner repo : String) (number : Nat)
  | addAssignees (owner repo : String) (number : Nat) (assignees : List String)
deriving DecidableEq, Repr

/-- The remote platform as an oracle: each operation may fail (a thrown
exception, `Except.error`).  `issueAssignees` returns the `assignees` field of
`issues.get`, which may be absent. -/
structure Remote where
  installationToken : String → String → Except Unit String
  issueAssignees : String → String → Nat → Except Unit (Option (List String))
  postComment : String → String → Nat → Except Unit Unit
  addAssignees : String → String → Nat → List String → Except Unit Unit

/-- `getOctokitToken(owner, repo)`: `if (!owner || !repo) return ""` makes no
remote call; otherwise the app-token exchange runs against the remote. -/
def getOctokitToken (r : Remote) (owner repo : String) :
    List RemoteCall × Except Unit String :=
  if owner = "" ∨ repo = "" then ([], Except.ok "")
  else ([RemoteCall.getToken owner repo], r.installationToken owner repo)

/-- `issue.data.assignees && issue.data.assignees.length > 0`. -/
def hasAssignees : Option (List String) → Bool
  | some l => 0 < l.length
  | none => false

/-- The repository of a candidate item as the coordinator sees it. -/
structure CandRepository where
  owner : String
  name : String
  url : String
deriving DecidableEq, Repr

/-- The `githubItem` relation of a candidate `ActionItem`, with its nullable
`repository` relation. -/
structure CandGithubItem where
  id : Nat
  number : Nat
  repository : Option CandRepository
deriving DecidableEq, Repr

/-- A candidate passed to the coordinator (an `ActionItem` with its includes;
only the `githubItem` relation is used). -/
structure Candidate where
  githubItem : Option CandGithubItem
deriving DecidableEq, Repr

/-- The `for` loop of `assignIssueToVolunteer`: skip candidates without a
`githubItem`, fetch a token and the remote issue, skip when the remote issue
already has assignees, otherwise comment as the volunteer, add the volunteer
as assignee and break.  Returns the remote-call trace and whether an exception
was thrown (`Except.error`). -/
def claimLoop (r : Remote) (githubUsername : String) :
    List Candidate → List RemoteCall → List RemoteCall × Except Unit Unit
  | [], acc => (acc, Except.ok ())
  | c :: rest, acc =>
    match c.githubItem with
    | none => claimLoop r githubUsername rest acc
    | some g =>
      let owner := (g.repository.map (fun rep => rep.owner)).getD ""
      let name := (g.repository.map (fun rep => rep.name)).getD ""
      let tok := getOctokitToken r owner name
      match tok.2 with
      | Except.error e => (acc ++ tok.1, Except.error e)
      | Except.ok _ =>
        let acc1 := acc ++ tok.1 ++ [RemoteCall.getIssue owner name g.number]
        match r.issueAssignees owner name g.number with
        | Except.error e => (acc1, Except.error e)
        | Except.ok assignees =>
          if hasAssignees assignees then claimLoop r githubUsername rest acc1
          else
            let acc2 := acc1 ++ [RemoteCall.createComment owner name g.number]
            match r.postComment owner name g.number with
            | Except.error e => (acc2, Except.error e)
            | Except.ok _ =>
              let acc3 := acc2 ++ [RemoteCall.addAssignees owner name g.number [githubUsername]]
              match r.addAssignees owner name g.number [githubUsername] with
              | Except.error e => (acc3, Except.error e)
              | Except.ok _ => (acc3, Except.ok ())

/-- JavaScript falsiness of a nullable string (`!s`): absent or empty. -/
def falsyStr : Option String → Bool
  | none => true
  | some s => s = ""

/-- The observable result of `assignIssueToVolunteer`: which message path was
taken.  `assigned` carries the id and number of `items[0].githubItem`, which is
what the claim row connects to and the success message reports. -/
inductive AssignOutcome where
  | needsIdentityLink
  | alreadyVolunteering (issueId : Nat)
  | assigned (issueId : Nat) (issueNumber : Nat)
  | caughtException
deriving DecidableEq, Repr

/-- `assignIssueToVolunteer(items, user, ...)`: the identity guard
(`!user.githubToken || !user.githubUsername`), the existing-claim lookup, then
the try/catch around the candidate loop, the `volunteerDetail.create`
connecting `items[0].githubItem?.id`, and the success message.  On an empty
candidate list `items[0]` is `undefined` and dereferencing `.githubItem`
throws inside the try, so the exception is caught; a `connect` on an absent
`githubItem` id is likewise a caught runtime error.  Returns the outcome, the
resulting store and the remote-call trace. -/
def assignIssueToVolunteer (r : Remote) (items : List Candidate) (user : UserRec)
    (now : Nat) (s : Store) : AssignOutcome × Store × List RemoteCall :=
  if falsyStr user.githubToken || falsyStr user.githubUsername then
    (AssignOutcome.needsIdentityLink, s, [])
  else
    match s.volunteerDetails.find? (fun v => v.assigneeId == user.id) with
    | some v => (AssignOutcome.alreadyVolunteering v.issueId, s, [])
    | none =>
      let looped := claimLoop r (user.githubUsername.getD "") items []
      match looped.2 with
      | Except.error _ => (AssignOutcome.caughtException, s, looped.1)
      | Except.ok _ =>
        match items.head? with
        | none => (AssignOutcome.caughtException, s, looped.1)
        | some first =>
          match first.githubItem with
          | none => (AssignOutcome.caughtException, s, looped.1)
          | some g =>
            (AssignOutcome.assigned g.id g.number,
             { s with volunteerDetails := s.volunteerDetails ++
                 [{ assigneeId := user.id, assignedOn := now, issueId := g.id }] },
             looped.1)

/-! ## Concrete fixtures for counterexamples and witnesses -/

/-- A volunteer with a linked GitHub identity and token. -/
def volunteerUser : UserRec :=
  { id := 10, githubUsername := some "vol", githubToken := some "tok", slackId := none }

/-- A remote on which every issue already has an assignee, and every call
succeeds. -/
def remoteAllBusy : Remote :=
  { installationToken := fun _ _ => Except.ok "t"
    issueAssignees := fun _ _ _ => Except.ok (some ["bob"])
    postComment := fun _ _ _ => Except.ok ()
    addAssignees := fun _ _ _ _ => Except.ok () }

/-- A remote on which issue 11 has an assignee and every other issue has
none; every call succeeds. -/
def remoteFirstBusy : Remote :=
  { installationToken := fun _ _ => Except.ok "t"
    issueAssignees := fun _ _ n => Except.ok (if n = 11 then some ["bob"] else some [])
    postComment := fun _ _ _ => Except.ok ()
    addAssignees := fun _ _ _ _ => Except.ok () }

def candRepo : CandRepository := { owner := "own", name := "repo", url := "u" }

/-- Candidate backed by github item 5, issue number 7. -/
def candA : Candidate := { githubItem := some { id := 5, number := 7, repository := some candRepo } }

/-- Candidate X of the [X, Y] scenario: github item 1, issue number 11. -/
def candX : Candidate := { githubItem := some { id := 1, number := 11, repository := some candRepo } }

/-- Candidate Y of the [X, Y] scenario: github item 2, issue number 22. -/
def candY : Candidate := { githubItem := some { id := 2, number := 22, repository := some candRepo } }

/-- A volunteer without a linked GitHub identity. -/
def unlinkedUser : UserRec :=
  { id := 11, githubUsername := none, githubToken := none, slackId := none }

/-- A store in which `volunteerUser` already holds a claim on github item 42. -/
def claimedStore : Store :=
  { emptyStore with volunteerDetails := [{ assigneeId := 10, assignedOn := 3, issueId := 42 }] }

/-- A configuration that monitors the repository with url `R` as project
`demo`, whose sole maintainer is the GitHub user `mal`. -/
def demoConfig : Config :=
  { getProjectName := fun url => if url = "R" then some "demo" else none
    getMaintainers := fun url => if url = "R" then [{ github := some "mal", slack := none }] else [] }

/-- The issue object of `maintainerPayload`. -/
def maintainerIssue : ItemPayload :=
  { node_id := "I_9"
    title := "t"
    body := some "b"
    number := 9
    user_login := "mal"
    labels := some []
    created_at := "T1"
    updated_at := "T1" }

/-- An issue event on repository `R` authored by the maintainer `mal`. -/
def maintainerPayload : Payload :=
  { issue := some maintainerIssue
    pull_request := none
    repository := { name := "rname", owner_login := "rowner", html_url := "R" } }

/-- An issue payload on node `I_9` authored by `alice` with labels {A, B}. -/
def issueAB : ItemPayload :=
  { node_id := "I_9"
    title := "t1"
    body := some "b1"
    number := 9
    user_login := "alice"
    labels := some [{ name := "A" }, { name := "B" }]
    created_at := "T1"
    updated_at := "T1" }

/-- A later issue payload on the same node `I_9` with labels {B, C}. -/
def issueBC : ItemPayload :=
  { node_id := "I_9"
    title := "t2"
    body := some "b2"
    number := 9
    user_login := "alice"
    labels := some [{ name := "B" }, { name := "C" }]
    created_at := "T1"
    updated_at := "T2" }

def payloadAB : Payload :=
  { issue := some issueAB
    pull_request := none
    repository := { name := "rname", owner_login := "rowner", html_url := "R" } }

def payloadBC : Payload :=
  { issue := some issueBC
    pull_request := none
    repository := { name := "rname", owner_login := "rowner", html_url := "R" } }

/-- A stored item on node `I_9` whose workflow record was previously
resolved. -/
def resolvedItem : GithubItemRec :=
  { nodeId := "I_9"
    repoUrl := "R"
    authorId := 0
    title := "old"
    body := "ob"
    number := 9
    state := "open"
    type := GithubItemType.issue
    createdAt := "T0"
    updatedAt := "T0"
    actionItem := { status := "open", totalReplies := 2, resolvedAt := some "T0", participants := ["p"] }
    labelsOnItems := ["A"] }

def resolvedStore : Store := { emptyStore with items := [resolvedItem] }

/-! ## Theorems: the coordinator -/

/-- C7: when the volunteer lacks a linked GitHub username or an access token
(JS-falsy field), `assignIssueToVolunteer` returns the needs-identity-link
outcome with the store unchanged and no remote calls; the result does not
depend on the store or the candidate list at all. -/
theorem assign_needs_identity_link (r : Remote) (items : List Candidate) (user : UserRec)
    (now : Nat) (s : Store)
    (h : falsyStr user.githubToken = true ∨ falsyStr user.githubUsername = true) :
    assignIssueToVolunteer r items user now s = (AssignOutcome.needsIdentityLink, s, []) := by
  unfold assignIssueToVolunteer
  rcases h with h | h <;> simp [h]

/-- Witness for C7: a concrete volunteer without linked identity, on a live
remote and a nonempty candidate list, gets needs-identity-link and nothing
happens. -/
theorem assign_needs_identity_link_witness :
    assignIssueToVolunteer remoteAllBusy [candA] unlinkedUser 0 emptyStore =
      (AssignOutcome.needsIdentityLink, emptyStore, []) :=
  assign_needs_identity_link remoteAllBusy [candA] unlinkedUser 0 emptyStore (Or.inl rfl)

/-- C6: a volunteer with a linked identity who already holds an active claim
gets the already-volunteering outcome referencing the existing claim's item;
no claim row is added, the store is unchanged, and no remote call is made. -/
theorem assign_already_volunteering (r : Remote) (items : List Candidate) (user : UserRec)
    (now : Nat) (s : Store) (v : VolunteerDetailRec)
    (htok : falsyStr user.githubToken = false)
    (huser : falsyStr user.githubUsername = false)
    (hfind : s.volunteerDetails.find? (fun d => d.assigneeId == user.id) = some v) :
    assignIssueToVolunteer r items user now s =
      (AssignOutcome.alreadyVolunteering v.issueId, s, []) := by
  unfold assignIssueToVolunteer
  simp [htok, huser, hfind]

/-- Witness for C6: the concrete volunteer with an existing claim on item 42
is rejected with that claim referenced, and the store and remote are
untouched. -/
theorem assign_already_volunteering_witness :
    assignIssueToVolunteer remoteAllBusy [candA] volunteerUser 0 claimedStore =
      (AssignOutcome.alreadyVolunteering 42, claimedStore, []) :=
  assign_already_volunteering remoteAllBusy [candA] volunteerUser 0 claimedStore
    { assigneeId := 10, assignedOn := 3, issueId := 42 } rfl rfl rfl

/-- C10: an eligible volunteer (linked identity, no existing claim) calling
with an empty candidate list: the loop makes no remote call, the dereference
of the missing `items[0]` when recording the claim throws inside the `try`,
the exception is caught, and no Volunteer Claim is created. -/
theorem assign_empty_candidates_caught (r : Remote) (user : UserRec) (now : Nat) (s : Store)
    (htok : falsyStr user.githubToken = false)
    (huser : falsyStr user.githubUsername = false)
    (hfind : s.volunteerDetails.find? (fun d => d.assigneeId == user.id) = none) :
    assignIssueToVolunteer r [] user now s = (AssignOutcome.caughtException, s, []) := by
  unfold assignIssueToVolunteer
  simp [htok, huser, hfind, claimLoop]

/-- Witness for C10: the concrete eligible volunteer with an empty candidate
list gets the caught-exception outcome, no claim row, no remote calls. -/
theorem assign_empty_candidates_caught_witness :
    assignIssueToVolunteer remoteAllBusy [] volunteerUser 0 emptyStore =
      (AssignOutcome.caughtException, emptyStore, []) :=
  assign_empty_candidates_caught remoteAllBusy volunteerUser 0 emptyStore rfl rfl rfl

/-- C1 (refuting evaluation): an eligible volunteer with one candidate whose
remote issue is already assigned: the candidate is skipped, `addAssignees` is
never called (the trace holds only the token exchange and the issue fetch),
yet a Volunteer Claim row for `items[0]` is created and the outcome is the
assigned message. -/
theorem assign_claims_despite_all_skipped :
    assignIssueToVolunteer remoteAllBusy [candA] volunteerUser 0 emptyStore =
      (AssignOutcome.assigned 5 7,
       { emptyStore with
         volunteerDetails := [{ assigneeId := 10, assignedOn := 0, issueId := 5 }] },
       [RemoteCall.getToken "own" "repo", RemoteCall.getIssue "own" "repo" 7]) := rfl

/-- C2 (refuting evaluation): in the [X, Y] scenario where X (issue 11, github
item 1) is already assigned remotely and Y (issue 22, github item 2) is free,
the remote comment and assignee calls go to Y, but the Volunteer Claim row
references X = `items[0]` (issueId 1) and the reported assignment is X. -/
theorem assign_claim_references_first_candidate :
    assignIssueToVolunteer remoteFirstBusy [candX, candY] volunteerUser 0 emptyStore =
      (AssignOutcome.assigned 1 11,
       { emptyStore with
         volunteerDetails := [{ assigneeId := 10, assignedOn := 0, issueId := 1 }] },
       [RemoteCall.getToken "own" "repo", RemoteCall.getIssue "own" "repo" 11,
        RemoteCall.getToken "own" "repo", RemoteCall.getIssue "own" "repo" 22,
        RemoteCall.createComment "own" "repo" 22,
        RemoteCall.addAssignees "own" "repo" 22 ["vol"]]) := rfl

/-! ## Theorems: the reconciler -/

/-- C3 counterexample: a maintainer-authored event on the monitored repository
`R`, with no repository row stored yet, produces no Item but does create a
Repository row: the repository records are not left unchanged. -/
theorem maintainer_event_creates_repository :
    (createGithubItem demoConfig maintainerPayload emptyStore).items = [] ∧
    (createGithubItem demoConfig maintainerPayload emptyStore).repositories ≠
      emptyStore.repositories :=
  ⟨rfl, by decide⟩

/-- C3 (amended): a maintainer-authored event on a monitored repository
produces no Item and leaves users, labels, items and claims unchanged, but the
Repository is still upserted (created on first sighting, name/owner
refreshed), because the repository upsert precedes the maintainer check. -/
theorem maintainer_suppression_upserts_repository (cfg : Config) (p : Payload) (s : Store)
    (item : ItemPayload)
    (hproj : (cfg.getProjectName p.repository.html_url).isSome)
    (hitem : p.item = some item)
    (hmaint : isMaintainerAuthored cfg p.repository.html_url item.user_login = true) :
    createGithubItem cfg p s =
      { s with repositories := upsertRepository p.repository s.repositories } := by
  obtain ⟨proj, hp⟩ := Option.isSome_iff_exists.mp hproj
  unfold createGithubItem reconcileMonitored
  simp only [hp, hitem, hmaint, if_true]

/-- Witness for the amended C3: the concrete maintainer-authored event only
upserts the repository row. -/
theorem maintainer_suppression_upserts_repository_witness :
    createGithubItem demoConfig maintainerPayload emptyStore =
      { emptyStore with
        repositories := upsertRepository maintainerPayload.repository emptyStore.repositories } :=
  maintainer_suppression_upserts_repository demoConfig maintainerPayload emptyStore
    maintainerIssue rfl rfl rfl

/-- The `update` branch of the item upsert, as an equation. -/
theorem upsertGithubItem_update_case {item : ItemPayload} {s : Store} (r : String) (a : Nat)
    (h : s.items.any (fun it => it.nodeId == item.node_id) = true) :
    upsertGithubItem r a item s =
      { s with
        labels := connectOrCreateLabels s.labels (payloadLabelNames item)
        items := s.items.map (applyItemUpdate item (prevResolvedIn s.items item.node_id)) } := by
  unfold upsertGithubItem
  rw [if_pos h]

/-- The `create` branch of the item upsert, as an equation. -/
theorem upsertGithubItem_create_case {item : ItemPayload} {s : Store} (r : String) (a : Nat)
    (h : s.items.any (fun it => it.nodeId == item.node_id) = false) :
    upsertGithubItem r a item s =
      { s with
        labels := connectOrCreateLabels s.labels (payloadLabelNames item)
        items := s.items ++ [newGithubItem r a item] } := by
  unfold upsertGithubItem
  rw [if_neg (by simp [h])]

/-- Author resolution does not touch the stored items. -/
theorem resolveAuthorStore_items (item : ItemPayload) (s : Store) :
    (resolveAuthorStore item s).items = s.items := by
  unfold resolveAuthorStore
  cases findUserByGithubUsername s.users item.user_login <;> rfl

/-- On a monitored repository with a non-maintainer author, the reconciler is
the repository upsert followed by author resolution and the item upsert. -/
theorem createGithubItem_not_maintainer (cfg : Config) (p : Payload) (s : Store)
    (item : ItemPayload) (proj : String)
    (hp : cfg.getProjectName p.repository.html_url = some proj)
    (hitem : p.item = some item)
    (hmaint : isMaintainerAuthored cfg p.repository.html_url item.user_login = false) :
    createGithubItem cfg p s =
      upsertGithubItem p.repository.html_url
        (resolveAuthorId item
          { s with repositories := upsertRepository p.repository s.repositories })
        item
        (resolveAuthorStore item
          { s with repositories := upsertRepository p.repository s.repositories }) := by
  unfold createGithubItem reconcileMonitored
  simp only [hp, hitem, hmaint, Bool.false_eq_true, if_false]

/-- After any item upsert, every stored item with the payload's node id
carries exactly the payload's label set. -/
theorem upsertGithubItem_labels_snapshot (r : String) (a : Nat) (item : ItemPayload) (s : Store) :
    ∀ it ∈ (upsertGithubItem r a item s).items, it.nodeId = item.node_id →
      it.labelsOnItems = payloadLabelNames item := by
  intro it hmem hnid
  by_cases h : s.items.any (fun it => it.nodeId == item.node_id) = true
  · rw [upsertGithubItem_update_case r a h] at hmem
    rcases List.mem_map.mp hmem with ⟨it0, hit0, rfl⟩
    unfold applyItemUpdate at hnid ⊢
    by_cases hm : (it0.nodeId == item.node_id) = true
    · rw [if_pos hm]
      rfl
    · rw [if_neg hm] at hnid
      exact absurd (beq_iff_eq.mpr hnid) hm
  · have hfalse : s.items.any (fun it => it.nodeId == item.node_id) = false := by
      simpa using h
    rw [upsertGithubItem_create_case r a hfalse] at hmem
    rcases List.mem_append.mp hmem with hl | hr
    · exact absurd (beq_iff_eq.mpr hnid) (List.any_eq_false.mp hfalse it hl)
    · rw [List.mem_singleton.mp hr]
      rfl

/-- After an item upsert that found an existing row, every stored item with
the payload's node id has workflow status closed exactly when the found row
was previously resolved, and an empty participant list. -/
theorem upsertGithubItem_status (r : String) (a : Nat) (item : ItemPayload) (s : Store)
    (it0 : GithubItemRec)
    (hfind : s.items.find? (fun it => it.nodeId == item.node_id) = some it0) :
    ∀ it ∈ (upsertGithubItem r a item s).items, it.nodeId = item.node_id →
      it.actionItem.status = (if it0.actionItem.resolvedAt.isSome then "closed" else "open") ∧
      it.actionItem.participants = [] := by
  intro it hmem hnid
  have hp0 := List.find?_some hfind
  have hm0 := List.mem_of_find?_eq_some hfind
  have hany : s.items.any (fun it => it.nodeId == item.node_id) = true :=
    List.any_eq_true.mpr ⟨it0, hm0, hp0⟩
  have hprev : prevResolvedIn s.items item.node_id = it0.actionItem.resolvedAt.isSome := by
    unfold prevResolvedIn
    rw [hfind]
    rfl
  rw [upsertGithubItem_update_case r a hany] at hmem
  rcases List.mem_map.mp hmem with ⟨it1, hit1, rfl⟩
  unfold applyItemUpdate at hnid ⊢
  by_cases hm : (it1.nodeId == item.node_id) = true
  · rw [if_pos hm]
    rw [hprev]
    constructor
    · cases hres : it0.actionItem.resolvedAt.isSome <;> rfl
    · rfl
  · rw [if_neg hm] at hnid
    exact absurd (beq_iff_eq.mpr hnid) hm

/-- After an item upsert that created a fresh row, every stored item with the
payload's node id has the kind derived from the node-id prefix. -/
theorem upsertGithubItem_type (r : String) (a : Nat) (item : ItemPayload) (s : Store)
    (hfresh : s.items.any (fun it => it.nodeId == item.node_id) = false) :
    ∀ it ∈ (upsertGithubItem r a item s).items, it.nodeId = item.node_id →
      it.type = (if strStartsWith item.node_id "I_" then GithubItemType.issue
                 else GithubItemType.pull_request) := by
  intro it hmem hnid
  rw [upsertGithubItem_create_case r a hfresh] at hmem
  rcases List.mem_append.mp hmem with hl | hr
  · exact absurd (beq_iff_eq.mpr hnid) (List.any_eq_false.mp hfresh it hl)
  · rw [List.mem_singleton.mp hr]
    rfl

/-- C5: reconciling a monitored, non-maintainer payload replaces the label
associations of its item wholesale: after reconciling any earlier payload
(e.g. with labels {A, B}) and then this one (labels {B, C}), every stored item
with the payload's node id carries exactly the second payload's label set,
never the union. -/
theorem label_replacement_snapshot (cfg : Config) (p1 p2 : Payload) (s : Store)
    (item2 : ItemPayload) (proj : String)
    (hp : cfg.getProjectName p2.repository.html_url = some proj)
    (hitem : p2.item = some item2)
    (hmaint : isMaintainerAuthored cfg p2.repository.html_url item2.user_login = false) :
    ∀ it ∈ (createGithubItem cfg p2 (createGithubItem cfg p1 s)).items,
      it.nodeId = item2.node_id → it.labelsOnItems = payloadLabelNames item2 := by
  rw [createGithubItem_not_maintainer cfg p2 (createGithubItem cfg p1 s) item2 proj hp hitem hmaint]
  exact upsertGithubItem_labels_snapshot _ _ _ _

/-- Witness for C5: reconciling `I_9` with labels {A, B} and then {B, C}
leaves the stored item with exactly ["B", "C"] associated. -/
theorem label_replacement_snapshot_witness :
    ((createGithubItem demoConfig payloadBC
        (createGithubItem demoConfig payloadAB emptyStore)).items.head?.getD
      (newGithubItem "" 0 issueBC)).labelsOnItems = ["B", "C"] :=
  label_replacement_snapshot demoConfig payloadAB payloadBC emptyStore issueBC "demo" rfl rfl rfl
    ((createGithubItem demoConfig payloadBC
        (createGithubItem demoConfig payloadAB emptyStore)).items.head?.getD
      (newGithubItem "" 0 issueBC))
    (by decide) (by decide)

/-- C8: on the update path (an item with the payload's node id already
exists), the reconciled item's workflow status is "closed" exactly when the
existing row's resolution timestamp was set, and "open" otherwise, and its
participant list is cleared. -/
theorem reconcile_update_status (cfg : Config) (p : Payload) (s : Store)
    (item : ItemPayload) (proj : String) (it0 : GithubItemRec)
    (hp : cfg.getProjectName p.repository.html_url = some proj)
    (hitem : p.item = some item)
    (hmaint : isMaintainerAuthored cfg p.repository.html_url item.user_login = false)
    (hfind : s.items.find? (fun it => it.nodeId == item.node_id) = some it0) :
    ∀ it ∈ (createGithubItem cfg p s).items, it.nodeId = item.node_id →
      it.actionItem.status = (if it0.actionItem.resolvedAt.isSome then "closed" else "open") ∧
      it.actionItem.participants = [] := by
  rw [createGithubItem_not_maintainer cfg p s item proj hp hitem hmaint]
  apply upsertGithubItem_status
  rw [resolveAuthorStore_items]
  exact hfind

/-- Witness for C8: updating the previously-resolved stored item `I_9` sets
its workflow status to "closed" and clears its participants. -/
theorem reconcile_update_status_witness :
    ((createGithubItem demoConfig payloadBC resolvedStore).items.head?.getD
      (newGithubItem "" 0 issueBC)).actionItem.status = "closed" ∧
    ((createGithubItem demoConfig payloadBC resolvedStore).items.head?.getD
      (newGithubItem "" 0 issueBC)).actionItem.participants = [] :=
  reconcile_update_status demoConfig payloadBC resolvedStore issueBC "demo" resolvedItem
    rfl rfl rfl rfl
    ((createGithubItem demoConfig payloadBC resolvedStore).items.head?.getD
      (newGithubItem "" 0 issueBC))
    (by decide) (by decide)

/-- C9: on the create path, the created item's kind is `issue` exactly when
the node identifier begins with "I_", and `pull_request` otherwise. -/
theorem reconcile_create_kind (cfg : Config) (p : Payload) (s : Store)
    (item : ItemPayload) (proj : String)
    (hp : cfg.getProjectName p.repository.html_url = some proj)
    (hitem : p.item = some item)
    (hmaint : isMaintainerAuthored cfg p.repository.html_url item.user_login = false)
    (hfresh : s.items.any (fun it => it.nodeId == item.node_id) = false) :
    ∀ it ∈ (createGithubItem cfg p s).items, it.nodeId = item.node_id →
      it.type = (if strStartsWith item.node_id "I_" then GithubItemType.issue
                 else GithubItemType.pull_request) := by
  rw [createGithubItem_not_maintainer cfg p s item proj hp hitem hmaint]
  apply upsertGithubItem_type
  rw [resolveAuthorStore_items]
  exact hfresh

/-- Witness for C9: reconciling the fresh node `I_9` creates an item of kind
`issue`. -/
theorem reconcile_create_kind_witness :
    ((createGithubItem demoConfig payloadAB emptyStore).items.head?.getD
      (newGithubItem "" 0 issueAB)).type = GithubItemType.issue := by
  have h := reconcile_create_kind demoConfig payloadAB emptyStore issueAB "demo" rfl rfl rfl rfl
    ((createGithubItem demoConfig payloadAB emptyStore).items.head?.getD
      (newGithubItem "" 0 issueAB))
    (by decide) (by decide)
  rw [h]
  decide

/-! ## Theorems: idempotent reconciliation (C4) -/


theorem upsertRepository_idem (rp : RepoPayload) (repos : List RepositoryRec) :
    upsertRepository rp (upsertRepository rp repos) = upsertRepository rp repos := by
  unfold upsertRepository
  by_cases h : repos.any (fun r => r.url == rp.html_url) = true
  · rw [if_pos h]
    have hany : (repos.map fun r =>
        if r.url == rp.html_url then { r with name := rp.name, owner := rp.owner_login }
        else r).any (fun r => r.url == rp.html_url) = true := by
      rcases List.any_eq_true.mp h with ⟨r, hr, hpr⟩
      refine List.any_eq_true.mpr ⟨_, List.mem_map_of_mem _ hr, ?_⟩
      rw [if_pos hpr]
      exact hpr
    rw [if_pos hany, List.map_map]
    refine List.map_congr_left fun r hr => ?_
    by_cases hpr : (r.url == rp.html_url) = true
    · simp only [Function.comp_apply, if_pos hpr]
    · simp only [Function.comp_apply, if_neg hpr]
  · have hfalse : repos.any (fun r => r.url == rp.html_url) = false := by simpa using h
    rw [if_neg h]
    have hany : (repos ++ [({ url := rp.html_url, name := rp.name, owner := rp.owner_login } :
        RepositoryRec)]).any (fun r => r.url == rp.html_url) = true := by
      refine List.any_eq_true.mpr ⟨_, List.mem_append_right _ (List.mem_singleton.mpr rfl), ?_⟩
      exact beq_self_eq_true _
    rw [if_pos hany, List.map_append]
    have hid : repos.map (fun r =>
        if r.url == rp.html_url then { r with name := rp.name, owner := rp.owner_login }
        else r) = repos := by
      have := List.map_congr_left (l := repos) (f := fun r =>
        if r.url == rp.html_url then { r with name := rp.name, owner := rp.owner_login }
        else r) (g := id) (fun r hr => by
          simp only [id_eq]
          exact if_neg (List.any_eq_false.mp hfalse r hr))
      rw [this, List.map_id]
    rw [hid]
    congr 1
    simp [beq_self_eq_true]



theorem mem_connectOrCreateLabel (labels : List String) (n m : String) (h : m ∈ labels) :
    m ∈ connectOrCreateLabel labels n := by
  unfold connectOrCreateLabel
  split
  · exact h
  · exact List.mem_append_left _ h

theorem self_mem_connectOrCreateLabel (labels : List String) (n : String) :
    n ∈ connectOrCreateLabel labels n := by
  unfold connectOrCreateLabel
  split
  · next hc => exact List.mem_of_elem_eq_true hc
  · exact List.mem_append_right _ (List.mem_singleton.mpr rfl)

theorem mem_connectOrCreateLabels (tbl ns : List String) (m : String) (h : m ∈ tbl) :
    m ∈ connectOrCreateLabels tbl ns := by
  induction ns generalizing tbl with
  | nil => exact h
  | cons n rest ih => exact ih _ (mem_connectOrCreateLabel _ _ _ h)

theorem mem_connectOrCreateLabels_of_mem (tbl ns : List String) (n : String) (h : n ∈ ns) :
    n ∈ connectOrCreateLabels tbl ns := by
  induction ns generalizing tbl with
  | nil => cases h
  | cons a rest ih =>
    rcases List.mem_cons.mp h with rfl | hrest
    · show n ∈ connectOrCreateLabels (connectOrCreateLabel tbl n) rest
      exact mem_connectOrCreateLabels _ _ _ (self_mem_connectOrCreateLabel _ _)
    · exact ih _ hrest

theorem connectOrCreateLabel_eq_of_mem (tbl : List String) (n : String) (h : n ∈ tbl) :
    connectOrCreateLabel tbl n = tbl := by
  unfold connectOrCreateLabel
  rw [if_pos (List.elem_eq_true_of_mem h)]

theorem connectOrCreateLabels_eq_of_subset (tbl ns : List String)
    (h : ∀ n ∈ ns, n ∈ tbl) : connectOrCreateLabels tbl ns = tbl := by
  induction ns with
  | nil => rfl
  | cons a rest ih =>
    show connectOrCreateLabels (connectOrCreateLabel tbl a) rest = tbl
    rw [connectOrCreateLabel_eq_of_mem tbl a (h a (List.mem_cons_self a rest))]
    exact ih (fun n hn => h n (List.mem_cons_of_mem a hn))

theorem connectOrCreateLabels_idem (tbl ns : List String) :
    connectOrCreateLabels (connectOrCreateLabels tbl ns) ns = connectOrCreateLabels tbl ns :=
  connectOrCreateLabels_eq_of_subset _ _ (fun n hn => mem_connectOrCreateLabels_of_mem _ _ n hn)



theorem updateItem_nodeId (item : ItemPayload) (b : Bool) (it : GithubItemRec) :
    (updateItem item b it).nodeId = it.nodeId := rfl

theorem updateItem_resolvedAt (item : ItemPayload) (b : Bool) (it : GithubItemRec) :
    (updateItem item b it).actionItem.resolvedAt = it.actionItem.resolvedAt := rfl

theorem updateItem_idem (item : ItemPayload) (b : Bool) (it : GithubItemRec) :
    updateItem item b (updateItem item b it) = updateItem item b it := rfl

theorem updateItem_new (r : String) (a : Nat) (item : ItemPayload) :
    updateItem item false (newGithubItem r a item) = newGithubItem r a item := rfl

theorem applyItemUpdate_nodeId (item : ItemPayload) (b : Bool) (it : GithubItemRec) :
    (applyItemUpdate item b it).nodeId = it.nodeId := by
  unfold applyItemUpdate
  split <;> rfl

theorem applyItemUpdate_resolvedAt (item : ItemPayload) (b : Bool) (it : GithubItemRec) :
    (applyItemUpdate item b it).actionItem.resolvedAt = it.actionItem.resolvedAt := by
  unfold applyItemUpdate
  split <;> rfl

theorem applyItemUpdate_idem (item : ItemPayload) (b : Bool) (it : GithubItemRec) :
    applyItemUpdate item b (applyItemUpdate item b it) = applyItemUpdate item b it := by
  by_cases hm : (it.nodeId == item.node_id) = true
  · have h1 : applyItemUpdate item b it = updateItem item b it := by
      unfold applyItemUpdate
      rw [if_pos hm]
    rw [h1]
    have hm2 : ((updateItem item b it).nodeId == item.node_id) = true := by
      rw [updateItem_nodeId]
      exact hm
    unfold applyItemUpdate
    rw [if_pos hm2]
    exact updateItem_idem item b it
  · have h1 : applyItemUpdate item b it = it := by
      unfold applyItemUpdate
      rw [if_neg hm]
    rw [h1]
    exact h1

theorem comp_nodeId_applyItemUpdate (item : ItemPayload) (b : Bool) (nid : String) :
    ((fun it : GithubItemRec => it.nodeId == nid) ∘ applyItemUpdate item b) =
      (fun it : GithubItemRec => it.nodeId == nid) := by
  funext it
  simp [Function.comp, applyItemUpdate_nodeId]

theorem any_map_applyItemUpdate (l : List GithubItemRec) (item : ItemPayload) (b : Bool)
    (nid : String) :
    (l.map (applyItemUpdate item b)).any (fun it => it.nodeId == nid) =
      l.any (fun it => it.nodeId == nid) := by
  rw [List.any_map, comp_nodeId_applyItemUpdate]

theorem find?_map_applyItemUpdate (l : List GithubItemRec) (item : ItemPayload) (b : Bool)
    (nid : String) :
    (l.map (applyItemUpdate item b)).find? (fun it => it.nodeId == nid) =
      (l.find? (fun it => it.nodeId == nid)).map (applyItemUpdate item b) := by
  rw [List.find?_map, comp_nodeId_applyItemUpdate]

theorem prevResolvedIn_map_applyItemUpdate (l : List GithubItemRec) (item : ItemPayload)
    (b : Bool) (nid : String) :
    prevResolvedIn (l.map (applyItemUpdate item b)) nid = prevResolvedIn l nid := by
  unfold prevResolvedIn
  rw [find?_map_applyItemUpdate]
  cases hf : l.find? (fun it => it.nodeId == nid) with
  | none => rfl
  | some it0 => simp [applyItemUpdate_resolvedAt]

theorem prevResolvedIn_append_new (l : List GithubItemRec) (r : String) (a : Nat)
    (item : ItemPayload) (hfresh : l.any (fun it => it.nodeId == item.node_id) = false) :
    prevResolvedIn (l ++ [newGithubItem r a item]) item.node_id = false := by
  unfold prevResolvedIn
  rw [List.find?_append]
  have h1 : l.find? (fun it => it.nodeId == item.node_id) = none :=
    List.find?_eq_none.mpr (fun x hx => by simpa using List.any_eq_false.mp hfresh x hx)
  rw [h1]
  simp [List.find?_cons, newGithubItem]

theorem any_append_new (l : List GithubItemRec) (r : String) (a : Nat) (item : ItemPayload) :
    (l ++ [newGithubItem r a item]).any (fun it => it.nodeId == item.node_id) = true := by
  refine List.any_eq_true.mpr ⟨_, List.mem_append_right _ (List.mem_singleton.mpr rfl), ?_⟩
  simp [newGithubItem]

theorem map_applyItemUpdate_idem (l : List GithubItemRec) (item : ItemPayload) (b : Bool) :
    (l.map (applyItemUpdate item b)).map (applyItemUpdate item b) =
      l.map (applyItemUpdate item b) := by
  rw [List.map_map]
  exact List.map_congr_left (fun it _ => by
    simp only [Function.comp_apply]
    exact applyItemUpdate_idem item b it)

theorem map_applyItemUpdate_append_new (l : List GithubItemRec) (r : String) (a : Nat)
    (item : ItemPayload) (hfresh : l.any (fun it => it.nodeId == item.node_id) = false) :
    (l ++ [newGithubItem r a item]).map (applyItemUpdate item false) =
      l ++ [newGithubItem r a item] := by
  rw [List.map_append]
  congr 1
  · have hid := List.map_congr_left (l := l) (f := applyItemUpdate item false) (g := id)
      (fun it hit => by
        simp only [id_eq]
        unfold applyItemUpdate
        rw [if_neg (List.any_eq_false.mp hfresh it hit)])
    rw [hid, List.map_id]
  · show [applyItemUpdate item false (newGithubItem r a item)] = [newGithubItem r a item]
    unfold applyItemUpdate
    rw [if_pos (by simp [newGithubItem])]
    rw [updateItem_new]

theorem upsertGithubItem_idem (r1 r2 : String) (a1 a2 : Nat) (item : ItemPayload) (s : Store) :
    upsertGithubItem r2 a2 item (upsertGithubItem r1 a1 item s) =
      upsertGithubItem r1 a1 item s := by
  by_cases h : s.items.any (fun it => it.nodeId == item.node_id) = true
  · rw [upsertGithubItem_update_case r1 a1 h]
    have h2 : (s.items.map (applyItemUpdate item (prevResolvedIn s.items item.node_id))).any
        (fun it => it.nodeId == item.node_id) = true := by
      rw [any_map_applyItemUpdate]
      exact h
    rw [upsertGithubItem_update_case r2 a2 h2]
    show ({ s with
      labels := connectOrCreateLabels (connectOrCreateLabels s.labels (payloadLabelNames item))
        (payloadLabelNames item)
      items := (s.items.map (applyItemUpdate item (prevResolvedIn s.items item.node_id))).map
        (applyItemUpdate item
          (prevResolvedIn (s.items.map (applyItemUpdate item (prevResolvedIn s.items item.node_id)))
            item.node_id)) } : Store) =
      { s with
        labels := connectOrCreateLabels s.labels (payloadLabelNames item)
        items := s.items.map (applyItemUpdate item (prevResolvedIn s.items item.node_id)) }
    rw [connectOrCreateLabels_idem, prevResolvedIn_map_applyItemUpdate, map_applyItemUpdate_idem]
  · have hfalse : s.items.any (fun it => it.nodeId == item.node_id) = false := by simpa using h
    rw [upsertGithubItem_create_case r1 a1 hfalse]
    have h2 := any_append_new s.items r1 a1 item
    rw [upsertGithubItem_update_case r2 a2 h2]
    show ({ s with
      labels := connectOrCreateLabels (connectOrCreateLabels s.labels (payloadLabelNames item))
        (payloadLabelNames item)
      items := (s.items ++ [newGithubItem r1 a1 item]).map
        (applyItemUpdate item
          (prevResolvedIn (s.items ++ [newGithubItem r1 a1 item]) item.node_id)) } : Store) =
      { s with
        labels := connectOrCreateLabels s.labels (payloadLabelNames item)
        items := s.items ++ [newGithubItem r1 a1 item] }
    rw [connectOrCreateLabels_idem, prevResolvedIn_append_new s.items r1 a1 item hfalse,
      map_applyItemUpdate_append_new s.items r1 a1 item hfalse]



theorem Store.ext_fields (s t : Store)
    (h1 : s.repositories = t.repositories) (h2 : s.users = t.users)
    (h3 : s.labels = t.labels) (h4 : s.items = t.items)
    (h5 : s.volunteerDetails = t.volunteerDetails) (h6 : s.nextUserId = t.nextUserId) :
    s = t := by
  cases s
  cases t
  simp_all

theorem upsertGithubItem_users (r : String) (a : Nat) (item : ItemPayload) (s : Store) :
    (upsertGithubItem r a item s).users = s.users := by
  unfold upsertGithubItem
  split <;> rfl

theorem upsertGithubItem_repositories (r : String) (a : Nat) (item : ItemPayload) (s : Store) :
    (upsertGithubItem r a item s).repositories = s.repositories := by
  unfold upsertGithubItem
  split <;> rfl

theorem resolveAuthorStore_repositories (item : ItemPayload) (s : Store) :
    (resolveAuthorStore item s).repositories = s.repositories := by
  unfold resolveAuthorStore
  cases findUserByGithubUsername s.users item.user_login <;> rfl

theorem findUser_resolveAuthorStore (item : ItemPayload) (s : Store) :
    (findUserByGithubUsername (resolveAuthorStore item s).users item.user_login).isSome = true := by
  unfold resolveAuthorStore
  cases hf : findUserByGithubUsername s.users item.user_login with
  | some u => simp [hf]
  | none =>
    show (findUserByGithubUsername (s.users ++ [freshUser s.nextUserId item.user_login])
      item.user_login).isSome = true
    unfold findUserByGithubUsername at hf ⊢
    rw [List.find?_append, hf]
    simp [List.find?_cons, freshUser]

theorem resolveAuthorStore_eq_self_of_found (item : ItemPayload) (t : Store)
    (h : (findUserByGithubUsername t.users item.user_login).isSome = true) :
    resolveAuthorStore item t = t := by
  unfold resolveAuthorStore
  cases hf : findUserByGithubUsername t.users item.user_login with
  | some u => rfl
  | none =>
    rw [hf] at h
    simp at h

theorem reconcileMonitored_none (cfg : Config) (p : Payload) (s1 : Store)
    (hi : p.item = none) : reconcileMonitored cfg p s1 = s1 := by
  unfold reconcileMonitored
  simp only [hi]

theorem reconcileMonitored_maintainer (cfg : Config) (p : Payload) (s1 : Store)
    (item : ItemPayload) (hi : p.item = some item)
    (hm : isMaintainerAuthored cfg p.repository.html_url item.user_login = true) :
    reconcileMonitored cfg p s1 = s1 := by
  unfold reconcileMonitored
  simp only [hi, hm, if_true]

theorem reconcileMonitored_not_maintainer (cfg : Config) (p : Payload) (s1 : Store)
    (item : ItemPayload) (hi : p.item = some item)
    (hm : isMaintainerAuthored cfg p.repository.html_url item.user_login = false) :
    reconcileMonitored cfg p s1 =
      upsertGithubItem p.repository.html_url (resolveAuthorId item s1) item
        (resolveAuthorStore item s1) := by
  unfold reconcileMonitored
  simp only [hi, hm, Bool.false_eq_true, if_false]

theorem reconcileMonitored_repositories (cfg : Config) (p : Payload) (s1 : Store) :
    (reconcileMonitored cfg p s1).repositories = s1.repositories := by
  cases hi : p.item with
  | none => rw [reconcileMonitored_none cfg p s1 hi]
  | some item =>
    by_cases hm : isMaintainerAuthored cfg p.repository.html_url item.user_login = true
    · rw [reconcileMonitored_maintainer cfg p s1 item hi hm]
    · have hm2 : isMaintainerAuthored cfg p.repository.html_url item.user_login = false := by
        simpa using hm
      rw [reconcileMonitored_not_maintainer cfg p s1 item hi hm2,
        upsertGithubItem_repositories, resolveAuthorStore_repositories]

theorem reconcileMonitored_idem (cfg : Config) (p : Payload) (s1 : Store) :
    reconcileMonitored cfg p (reconcileMonitored cfg p s1) = reconcileMonitored cfg p s1 := by
  cases hi : p.item with
  | none =>
    rw [reconcileMonitored_none cfg p s1 hi, reconcileMonitored_none cfg p s1 hi]
  | some item =>
    by_cases hm : isMaintainerAuthored cfg p.repository.html_url item.user_login = true
    · rw [reconcileMonitored_maintainer cfg p s1 item hi hm,
        reconcileMonitored_maintainer cfg p s1 item hi hm]
    · have hm2 : isMaintainerAuthored cfg p.repository.html_url item.user_login = false := by
        simpa using hm
      rw [reconcileMonitored_not_maintainer cfg p s1 item hi hm2]
      rw [reconcileMonitored_not_maintainer cfg p _ item hi hm2]
      have hfound : (findUserByGithubUsername
          (upsertGithubItem p.repository.html_url (resolveAuthorId item s1) item
            (resolveAuthorStore item s1)).users item.user_login).isSome = true := by
        rw [upsertGithubItem_users]
        exact findUser_resolveAuthorStore item s1
      rw [resolveAuthorStore_eq_self_of_found item _ hfound]
      exact upsertGithubItem_idem _ _ _ _ item _

theorem createGithubItem_unmonitored (cfg : Config) (p : Payload) (s : Store)
    (hp : cfg.getProjectName p.repository.html_url = none) :
    createGithubItem cfg p s = s := by
  unfold createGithubItem
  simp only [hp]

theorem createGithubItem_monitored (cfg : Config) (p : Payload) (s : Store) (proj : String)
    (hp : cfg.getProjectName p.repository.html_url = some proj) :
    createGithubItem cfg p s =
      reconcileMonitored cfg p
        { s with repositories := upsertRepository p.repository s.repositories } := by
  unfold createGithubItem
  simp only [hp]

/-- C4: reconciliation is idempotent: for every configuration, payload and
store, running `createGithubItem` twice with the same payload leaves exactly
the same store (items, workflow records, label associations, and every other
field) as running it once. -/
theorem createGithubItem_idem (cfg : Config) (p : Payload) (s : Store) :
    createGithubItem cfg p (createGithubItem cfg p s) = createGithubItem cfg p s := by
  cases hp : cfg.getProjectName p.repository.html_url with
  | none =>
    rw [createGithubItem_unmonitored cfg p s hp, createGithubItem_unmonitored cfg p s hp]
  | some proj =>
    rw [createGithubItem_monitored cfg p s proj hp]
    rw [createGithubItem_monitored cfg p _ proj hp]
    have hY : ({ (reconcileMonitored cfg p
        { s with repositories := upsertRepository p.repository s.repositories }) with
        repositories := upsertRepository p.repository
          (reconcileMonitored cfg p
            { s with repositories := upsertRepository p.repository s.repositories }).repositories }
          : Store) =
        reconcileMonitored cfg p
          { s with repositories := upsertRepository p.repository s.repositories } := by
      apply Store.ext_fields
      · rw [reconcileMonitored_repositories]
        exact upsertRepository_idem p.repository s.repositories
      · rfl
      · rfl
      · rfl
      · rfl
      · rfl
    rw [hY]
    exact reconcileMonitored_idem cfg p _


end Slacker
